import Mathlib

/-!
Verification of the pyscreener Vina docking pipeline against its
natural-language specification.

Shallow embedding of:
- `pyscreener/docking/vina/runner.py` (`VinaRunner`: `prepare_receptor`,
  `prepare_from_smi`, `prepare_from_file` naming, `run`, `build_argv`,
  `parse_logfile`)
- `pyscreener/docking/vina/data.py` (`Software`, `VinaCalculationData`,
  the `score` property)
- `pyscreener/args.py` (`positive_int`, the `-k` option converter)
- `pyscreener/utils.py` (`ScoreMode`, `calc_score`) is not part of the
  provided sources, so it is modelled from the spec where needed.

Numeric scores are modelled as exact rationals (`ℚ`): the claims under
study concern which tokens parse and in which order, not IEEE rounding.
Python exceptions are modelled with an explicit error type, and the
relevant pieces of Python's runtime semantics (file-handle state, lazy
`takewhile`, name binding) are made explicit in the embedding.
-/

/-- The Python exceptions that the embedded code can raise. -/
inductive PyErr where
  | osError
  | nameError
  | valueError
  | indexError
  | attributeError
  | typeError
  | argumentTypeError
  deriving DecidableEq

/-- Does `pat` occur at the head of `s`? (helper for substring containment) -/
def listStarts (pat s : List Char) : Bool :=
  match pat, s with
  | [], _ => true
  | _ :: _, [] => false
  | p :: ps, c :: cs => p == c && listStarts ps cs

/-- Does `pat` occur anywhere in `s`? (helper for substring containment) -/
def listHas (pat : List Char) : List Char → Bool
  | [] => pat.isEmpty
  | c :: cs => listStarts pat (c :: cs) || listHas pat cs

/-- Python `sub in line` on strings (substring containment). -/
def pyIn (sub line : String) : Bool :=
  listHas sub.toList line.toList

/-- One step of Python `str.split()`: accumulate a token, skipping
whitespace runs and discarding empty pieces. -/
def splitWsAux : List Char → List Char → List String
  | [], acc => if acc.isEmpty then [] else [⟨acc.reverse⟩]
  | c :: rest, acc =>
    if c.isWhitespace then
      if acc.isEmpty then splitWsAux rest [] else ⟨acc.reverse⟩ :: splitWsAux rest []
    else splitWsAux rest (c :: acc)

/-- Python `str.split()` with no arguments: split on whitespace runs,
no empty tokens. -/
def pySplit (s : String) : List String :=
  splitWsAux s.toList []

/-- Numeric value of a run of decimal digit characters (most significant
first); helper for the numeric-literal parsers. -/
def digitsToNat (cs : List Char) : ℕ :=
  cs.foldl (fun acc c => 10 * acc + (c.toNat - 48)) 0

/-- The exponent part of a Python float literal: optional sign then a
nonempty run of digits ending the token. -/
def pyFloatExp (mant : ℚ) (cs : List Char) : Option ℚ :=
  let sgnCs : ℤ × List Char :=
    match cs with
    | '-' :: rest => (-1, rest)
    | '+' :: rest => (1, rest)
    | _ => (1, cs)
  let ed := sgnCs.2.takeWhile Char.isDigit
  let rest := sgnCs.2.dropWhile Char.isDigit
  if ed.isEmpty ∨ ¬ rest.isEmpty then none
  else some (mant * (10 : ℚ) ^ (sgnCs.1 * (digitsToNat ed : ℤ)))

/-- Python `float(token)` on a whitespace-free token, as an exact rational:
optional sign, then digits and/or a decimal point, then an optional
exponent part. `none` models `ValueError`. (The exotic accepted forms
`inf`/`nan`/underscore separators are not modelled; no input in this
development uses them.) -/
def pyFloat (s : String) : Option ℚ :=
  let cs := s.toList
  let sgnCs : ℚ × List Char :=
    match cs with
    | '-' :: rest => (-1, rest)
    | '+' :: rest => (1, rest)
    | _ => (1, cs)
  let ip := sgnCs.2.takeWhile Char.isDigit
  let afterInt := sgnCs.2.dropWhile Char.isDigit
  let fpRest : List Char × List Char :=
    match afterInt with
    | '.' :: rest => (rest.takeWhile Char.isDigit, rest.dropWhile Char.isDigit)
    | _ => ([], afterInt)
  let fp := fpRest.1
  if ip.isEmpty ∧ fp.isEmpty then none
  else
    let mant : ℚ := (digitsToNat ip : ℚ) + (digitsToNat fp : ℚ) / (10 ^ fp.length)
    match fpRest.2 with
    | [] => some (sgnCs.1 * mant)
    | 'e' :: rest => pyFloatExp (sgnCs.1 * mant) rest
    | 'E' :: rest => pyFloatExp (sgnCs.1 * mant) rest
    | _ => none

/-- Python `int(arg)` on a whitespace-free token: optional sign then a
nonempty run of digits. `none` models `ValueError`. -/
def pyInt (s : String) : Option ℤ :=
  let cs := s.toList
  let sgnCs : ℤ × List Char :=
    match cs with
    | '-' :: rest => (-1, rest)
    | '+' :: rest => (1, rest)
    | _ => (1, cs)
  if sgnCs.2.isEmpty ∨ ¬ (sgnCs.2.all Char.isDigit) then none
  else some (sgnCs.1 * digitsToNat sgnCs.2)

/-- Index of the last occurrence of `c` in `cs`, if any (helper for
`pathlib` name/suffix computations). -/
def lastIdxOf (c : Char) (cs : List Char) : Option ℕ :=
  match cs with
  | [] => none
  | x :: xs =>
    match lastIdxOf c xs with
    | some i => some (i + 1)
    | none => if x == c then some 0 else none

/-- The final path component: everything after the last `/`
(`pathlib.PurePath.name`). -/
def pyBasename (cs : List Char) : List Char :=
  match lastIdxOf '/' cs with
  | some i => cs.drop (i + 1)
  | none => cs

/-- `pathlib.Path(p).stem`: the final component without its last suffix;
a leading or trailing dot does not start a suffix. -/
def pyStem (p : String) : String :=
  let base := pyBasename p.toList
  match lastIdxOf '.' base with
  | some i => if 0 < i ∧ i + 1 < base.length then ⟨base.take i⟩ else ⟨base⟩
  | none => ⟨base⟩

/-- `pyscreener.docking.vina.data.Software`: the engine enumeration, whose
`value` is the lower-cased member name. -/
inductive Software where
  | vina
  | psovina
  | qvina
  | smina
  deriving DecidableEq

/-- `Software.value` (the `Enum` value produced by
`_generate_next_value_`). -/
def Software.value : Software → String
  | .vina => "vina"
  | .psovina => "psovina"
  | .qvina => "qvina"
  | .smina => "smina"

/-- Modelled from the spec: `pyscreener.utils.ScoreMode` (`pyscreener/utils.py`
is not among the provided sources). A closed enumeration
{BEST, AVERAGE, BOLTZMANN, TOP_K} of score-reduction policies (§3, §4.1). -/
inductive ScoreMode where
  | best
  | avg
  | boltzmann
  | topK
  deriving DecidableEq

/-- A value stored in the `result` mapping of a calculation: the mapping
built by `VinaRunner.run` holds strings (smiles, name, node id) and one
optional score. -/
inductive RVal where
  | str : String → RVal
  | num : Option ℚ → RVal
  deriving DecidableEq

/-- `pyscreener.docking.vina.data.VinaCalculationData` after
`__post_init__` (so `extra` is already the split argument list and the
paths are `Path` values, modelled as strings). -/
structure VinaCalculationData where
  smi : String
  receptor : String
  software : Software
  center : ℚ × ℚ × ℚ
  size : ℚ × ℚ × ℚ
  ncpu : ℕ
  extra : List String
  name : String
  input_file : Option String
  in_path : String
  out_path : String
  score_mode : ScoreMode
  k : ℤ
  prepared_ligand : Option String
  prepared_receptor : Option String
  result : Option (List (String × RVal))
  deriving DecidableEq

/-- `shlex.split` as used on the `extra` field: whitespace tokenization
(quote handling is not modelled; no input in this development uses
quotes). -/
def pyShlexSplit (s : String) : List String :=
  pySplit s

/-- Construction of a `VinaCalculationData`, including `__post_init__`
(`data.py` lines 90-110): `extra` is split from the raw string (empty or
missing gives `[]`); every other field — in particular `k` and
`score_mode` — is stored unvalidated. -/
def mkVinaCalculationData (smi receptor : String) (software : Software)
    (center size : ℚ × ℚ × ℚ) (ncpu : ℕ) (extra : Option String)
    (name : String) (input_file : Option String) (in_path out_path : String)
    (score_mode : ScoreMode) (k : ℤ)
    (prepared_ligand prepared_receptor : Option String)
    (result : Option (List (String × RVal))) : VinaCalculationData :=
  { smi := smi
    receptor := receptor
    software := software
    center := center
    size := size
    ncpu := ncpu
    extra :=
      match extra with
      | none => []
      | some s => pyShlexSplit s
    name := name
    input_file := input_file
    in_path := in_path
    out_path := out_path
    score_mode := score_mode
    k := k
    prepared_ligand := prepared_ligand
    prepared_receptor := prepared_receptor
    result := result }

/-- The exceptions raised by the `score` property of
`VinaCalculationData`. -/
inductive ScoreErr where
  | notSimulated
  | invalidResult
  deriving DecidableEq

/-- The `score` property (`data.py` lines 112-131): `NotSimulatedError`
when `result` is `None`; otherwise `result['score']`, with the `KeyError`
of a missing key re-raised as `InvalidResultError`. -/
def VinaCalculationData.score (d : VinaCalculationData) :
    Except ScoreErr RVal :=
  match d.result with
  | none => .error .notSimulated
  | some m =>
    match m.lookup "score" with
    | some v => .ok v
    | none => .error .invalidResult

/-- Minimum of a score list (0 on the empty list, which no caller
reaches). -/
def listMin : List ℚ → ℚ
  | [] => 0
  | x :: xs => xs.foldl min x

/-- Arithmetic mean of a score list. -/
def listMean (xs : List ℚ) : ℚ :=
  xs.sum / (xs.length : ℚ)

/-- Modelled from the spec: `pyscreener.utils.calc_score`, the Score
Reducer of §4.1 (`pyscreener/utils.py` is not among the provided
sources). `reduce(scores, mode, k) -> optional float`: empty input is
absent; BEST is the minimum; AVERAGE the mean; BOLTZMANN the
Boltzmann-weighted average stabilized by subtracting the minimum, with
the transcendental weight function passed in as `ew`; TOP_K the mean of
the `k` lowest scores, all of them when `k` exceeds the length. -/
def calc_score (ew : ℚ → ℚ) (scores : List ℚ) (mode : ScoreMode)
    (k : Option ℤ) : Option ℚ :=
  match scores with
  | [] => none
  | s :: rest =>
    let xs := s :: rest
    some
      (match mode with
       | .best => listMin xs
       | .avg => listMean xs
       | .boltzmann =>
         let m := listMin xs
         let ws := xs.map fun x => ew (x - m)
         (List.zipWith (· * ·) xs ws).sum / ws.sum
       | .topK =>
         let kk : ℕ :=
           match k with
           | some v => v.toNat
           | none => xs.length
         listMean ((xs.insertionSort (· ≤ ·)).take kk))

/-- Decimal form of a rational, standing in for Python's float
formatting inside f-strings (the claims under study never depend on the
numeral text). -/
def qstr (q : ℚ) : String :=
  toString q.num ++ (if q.den = 1 then "" else "/" ++ toString q.den)

/-- `VinaRunner.build_argv` (`runner.py` lines 188-244): pure
construction of the engine argument vector together with the out- and
log-file paths. `name` is `None` (absent) or a string; Python's
`name or ...` default also fires on the empty string. -/
def build_argv (ligand receptor : String) (software : Software)
    (center : ℚ × ℚ × ℚ) (size : ℚ × ℚ × ℚ) (ncpu : ℕ)
    (name : Option String) (path : String) (extra : List String) :
    List String × String × String :=
  let defName := pyStem receptor ++ "_" ++ pyStem ligand
  let nm :=
    match name with
    | some n => if n = "" then defName else n
    | none => defName
  let out := path ++ "/" ++ software.value ++ "_" ++ nm ++ "_out.pdbqt"
  let log := path ++ "/" ++ software.value ++ "_" ++ nm ++ ".log"
  ([software.value,
    "--receptor=" ++ receptor,
    "--ligand=" ++ ligand,
    "--center_x=" ++ qstr center.1,
    "--center_y=" ++ qstr center.2.1,
    "--center_z=" ++ qstr center.2.2,
    "--size_x=" ++ qstr size.1,
    "--size_y=" ++ qstr size.2.1,
    "--size_z=" ++ qstr size.2.2,
    "--cpu=" ++ toString ncpu,
    "--out=" ++ out,
    "--log=" ++ log] ++ extra,
   out, log)

/-- The fixed Vina results-table border (`runner.py` line 262). -/
def TABLE_BORDER : String :=
  "-----+------------+----------+----------"

/-- A Python text-file handle: the not-yet-consumed lines and whether the
handle has been closed. -/
structure PyFile where
  rest : List String
  closed : Bool
  deriving DecidableEq

/-- The lines remaining after the first line containing the border, if
the border occurs at all. -/
def findBorder : List String → Option (List String)
  | [] => none
  | l :: ls => if pyIn TABLE_BORDER l then some ls else findBorder ls

/-- The `for line in fid: if TABLE_BORDER in line: break` loop of
`parse_logfile` (lines 265-267): the handle is left just past the border
line, or exhausted when no line contains the border. -/
def scanToBorder (lines : List String) : List String :=
  (findBorder lines).getD []

/-- `float(line.split()[1])` (line 279): `IndexError` when the line has
fewer than two tokens, `ValueError` when the second token is not a float
literal. -/
def lineScore (line : String) : Except PyErr ℚ :=
  match (pySplit line)[1]? with
  | none => .error .indexError
  | some tok =>
    match pyFloat tok with
    | none => .error .valueError
    | some q => .ok q

/-- `scores or None` (line 283): an empty score list is returned as
absent. -/
def pyOrNone (xs : List ℚ) : Option (List ℚ) :=
  if xs.isEmpty then none else some xs

/-- The final `for line in score_lines` loop of `parse_logfile`
(lines 276-283) run over an OPEN handle positioned at `lines`:
`score_lines` is `takewhile(lambda line: 'Writing' not in line, fid)`,
and the `try` inside the loop catches only `ValueError`, so an
`IndexError` from a short line escapes. -/
def scoresLoopOpen : List String → List ℚ → Except PyErr (Option (List ℚ))
  | [], acc => .ok (pyOrNone acc.reverse)
  | l :: ls, acc =>
    if pyIn "Writing" l then .ok (pyOrNone acc.reverse)
    else
      match lineScore l with
      | .ok q => scoresLoopOpen ls (q :: acc)
      | .error .valueError => scoresLoopOpen ls acc
      | .error e => .error e

/-- The same loop against an arbitrary handle: every pull of
`score_lines` first calls `next(fid)`, which raises `ValueError`
("I/O operation on closed file") when the handle is closed — before the
takewhile predicate or the loop body can run. The closed flag cannot
change during the loop, so one entry check is equivalent. -/
def scoresLoop (f : PyFile) (acc : List ℚ) :
    Except PyErr (Option (List ℚ)) :=
  if f.closed then .error .valueError
  else scoresLoopOpen f.rest acc

/-- `VinaRunner.parse_logfile` (`runner.py` lines 246-283). `content` is
`none` when `open(logfile)` raises `OSError`, otherwise the file's lines.
The embedding mirrors three facts of the source: (1) on `OSError` the
`except` clause is `pass`, leaving `score_lines` unbound, so the later
`for line in score_lines` raises `NameError`; (2) `score_lines` is a lazy
`takewhile` over `fid` created inside the `with` block but consumed after
it, i.e. after the handle is closed; (3) the score loop then runs against
that closed handle. -/
def parse_logfile (content : Option (List String)) :
    Except PyErr (Option (List ℚ)) :=
  match content with
  | none => .error .nameError
  | some lines =>
    let fid : PyFile := { rest := scanToBorder lines, closed := true }
    scoresLoop fid []

/-- The lines collected for the results table: everything up to the first
line containing the `Writing` terminator. -/
def collectRows (after : List String) : List String :=
  after.takeWhile fun l => ! pyIn "Writing" l

/-- The scores successfully parsed from the second whitespace-delimited
token of each row, in row order, rows that fail to parse being skipped. -/
def rowScores (rows : List String) : List ℚ :=
  rows.filterMap fun l => (pySplit l)[1]?.bind pyFloat

/-- Modelled from the spec: the Log Parser contract of §4.2, written from
the spec's words for comparison with the source-derived `parse_logfile`.
Absent when the input is unreadable, the border is never found, or no
collected line yields a parseable number; otherwise the ordered list of
the numbers parsed from the second token of each collected line, lines
that fail to parse being skipped. -/
def logParserSpec (content : Option (List String)) : Option (List ℚ) :=
  match content with
  | none => none
  | some lines =>
    match findBorder lines with
    | none => none
    | some after =>
      let scores := rowScores (collectRows after)
      if scores.isEmpty then none else some scores

/-- `VinaRunner.run` (`runner.py` lines 138-186). `exitOk` is whether the
external docking process exits zero; `_logContent` is the log file's
content at parse time. The first component is the list of stderr
messages printed. Line 173 calls `VinaRunner.parse_log_file(log)`, but
the class defines only `parse_logfile`, so Python raises
`AttributeError` there on every invocation, before any result is
recorded; when `prepared_ligand` is still `None`, `Path(None)` at line
148 raises `TypeError` even earlier. -/
def VinaRunner.run (vinadata : VinaCalculationData) (exitOk : Bool)
    (_logContent : Option (List String)) :
    List String × Except PyErr (VinaCalculationData × Option (List ℚ)) :=
  match vinadata.prepared_ligand with
  | none => ([], .error .typeError)
  | some lig =>
    let ligand_name := pyStem lig
    let nm := pyStem vinadata.receptor ++ "_" ++ ligand_name
    let recv :=
      match vinadata.prepared_receptor with
      | some r => r
      | none => "None"
    let av := build_argv lig recv vinadata.software vinadata.center
      vinadata.size vinadata.ncpu (some nm) vinadata.out_path vinadata.extra
    let msgs :=
      if exitOk then []
      else ["ERROR: docking failed. argv: " ++ toString av.1,
            "Message: <engine stderr>"]
    (msgs, .error .attributeError)

/-- `VinaRunner.prepare_receptor` (`runner.py` lines 23-56). `convOk` is
whether the external `prepare_receptor` subprocess succeeds. The first
component is the list of stderr messages printed: on failure an error is
reported and `None` is returned; on success the data comes back with
`prepared_receptor` set. -/
def prepare_receptor (vinadata : VinaCalculationData) (convOk : Bool) :
    List String × Option VinaCalculationData :=
  let receptor_pdbqt :=
    vinadata.in_path ++ "/" ++ pyStem vinadata.receptor ++ ".pdbqt"
  if convOk then
    ([], some { vinadata with prepared_receptor := some receptor_pdbqt })
  else
    (["ERROR: failed to convert \"" ++ vinadata.receptor ++ "\""], none)

/-- `VinaRunner.prepare_from_smi` (`runner.py` lines 58-87). `readOk` is
whether `pybel.readstring` succeeds; `procOk` whether the subsequent
`make3D`/`addh`/`calccharges` calls succeed. The `try` swallows every
exception with `pass` and prints nothing; when `readstring` itself
failed, `mol` is unbound and the unguarded `mol.write` at line 82 raises
`NameError`. The first component is the list of stderr messages printed
(always empty: no failure is reported). -/
def prepare_from_smi (vinadata : VinaCalculationData)
    (readOk procOk : Bool) :
    List String × Except PyErr VinaCalculationData :=
  let pdbqt := vinadata.in_path ++ "/" ++ vinadata.name ++ ".pdbqt"
  match readOk, procOk with
  | true, _ => ([], .ok { vinadata with prepared_ligand := some pdbqt })
  | false, _ => ([], .error .nameError)

/-- `ceil(log10(n)) + 1`, the padding width of `prepare_from_file`
(`runner.py` line 115) with `n = len(mols) + offset`, computed exactly. -/
def clog10width (n : ℕ) : ℕ :=
  Nat.clog 10 n + 1

/-- The `w`-digit decimal numeral of `v` (most significant digit first),
with leading zeros. -/
def digitsPad : ℕ → ℕ → List ℕ
  | 0, _ => []
  | w + 1, v => v / 10 ^ w :: digitsPad w (v % 10 ^ w)

/-- The character of a decimal digit. -/
def digitChar (d : ℕ) : Char :=
  Char.ofNat (48 + d)

/-- Python `f-string` formatting `{v:0{w}}` for `v < 10 ^ w`: the decimal
numeral of `v` left-padded with zeros to width `w`. -/
def pyZeroPad (w v : ℕ) : List Char :=
  (digitsPad w v).map digitChar

/-- The generated name `f'ligand_{i+offset:0{width}}'` of
`prepare_from_file` (`runner.py` line 123), as a character list. -/
def ligandName (width i offset : ℕ) : List Char :=
  "ligand_".toList ++ pyZeroPad width (i + offset)

/-- The name `prepare_from_file` (`runner.py` lines 115-123) assigns to
the `i`-th of `total` molecules: the source-supplied title when nonempty,
otherwise the zero-padded sequential name with width
`ceil(log10(total + offset)) + 1`. -/
def prepareName (total offset i : ℕ) (title : String) : List Char :=
  if title = "" then ligandName (clog10width (total + offset)) i offset
  else title.toList

/-- `pyscreener.args.positive_int` (`args.py` lines 9-14): `int(arg)`
(whose failure is a `ValueError`), then values `<= 0` are rejected with
`ArgumentTypeError`. -/
def positive_int (arg : String) : Except PyErr ℤ :=
  match pyInt arg with
  | none => .error .valueError
  | some v => if v ≤ 0 then .error .argumentTypeError else .ok v

/-- The type converter of the `-k` command-line option (`args.py` line
107): plain `int`, with no positivity check; the option has no default,
so it may also simply be missing. -/
def kArgType (arg : String) : Except PyErr ℤ :=
  match pyInt arg with
  | none => .error .valueError
  | some v => .ok v

/-- A Vina log transcript: a border line followed by three well-formed
score rows and a `Writing` terminator line. -/
def vinaTranscript : List String :=
  ["#################################################################",
   "mode |   affinity | dist from best mode",
   "     | (kcal/mol) | rmsd l.b.| rmsd u.b.",
   "-----+------------+----------+----------",
   "   1       -8.1      0.000      0.000",
   "   2       -7.9      1.251      2.112",
   "   3       -7.2      2.005      3.847",
   "Writing output ... done."]

/-- A transcript in which the table border never occurs. -/
def noBorderTranscript : List String :=
  ["Parse error on line 12", "Could not read input file"]

/-- A concrete calculation description used for counterexamples. -/
def sampleData : VinaCalculationData :=
  mkVinaCalculationData "CCO" "receptors/5WIU.pdb" .vina (0, 0, 0) (10, 10, 10)
    1 none "ligand" none "." "." .best 1 none none none

/-! ## Shared lemmas -/

/-- The score loop over an open handle, for collected lines that contain
no terminator and at least two tokens: it appends, in order, exactly the
scores whose second token parses, skipping the rest. -/
theorem scoresLoopOpen_ok (lines : List String) :
    (∀ l ∈ lines, pyIn "Writing" l = false) →
    (∀ l ∈ lines, 2 ≤ (pySplit l).length) →
    ∀ acc : List ℚ,
      scoresLoopOpen lines acc = .ok (pyOrNone (acc.reverse ++ rowScores lines)) := by
  induction lines with
  | nil => intro _ _ acc; simp [scoresLoopOpen, rowScores]
  | cons l ls ih =>
    intro hw hl acc
    have hwl : pyIn "Writing" l = false := hw l (by simp)
    have hll : 2 ≤ (pySplit l).length := hl l (by simp)
    obtain ⟨tok, htok⟩ : ∃ tok, (pySplit l)[1]? = some tok := by
      cases h : (pySplit l)[1]? with
      | some t => exact ⟨t, rfl⟩
      | none =>
        rw [List.getElem?_eq_none_iff] at h
        omega
    have ihw : ∀ x ∈ ls, pyIn "Writing" x = false := fun x hx => hw x (by simp [hx])
    have ihl : ∀ x ∈ ls, 2 ≤ (pySplit x).length := fun x hx => hl x (by simp [hx])
    cases hf : pyFloat tok with
    | some q =>
      have hcomb : (pySplit l)[1]?.bind pyFloat = some q := by rw [htok]; exact hf
      simp only [scoresLoopOpen, hwl, Bool.false_eq_true, if_false, lineScore, htok, hf]
      rw [ih ihw ihl (q :: acc)]
      simp [rowScores, List.filterMap_cons, hcomb, List.append_assoc]
    | none =>
      have hcomb : (pySplit l)[1]?.bind pyFloat = none := by rw [htok]; exact hf
      simp only [scoresLoopOpen, hwl, Bool.false_eq_true, if_false, lineScore, htok, hf]
      rw [ih ihw ihl acc]
      simp [rowScores, List.filterMap_cons, hcomb]

/-- Every entry of the `w`-digit numeral of `v < 10 ^ w` is a decimal
digit. -/
theorem digitsPad_lt_ten (w : ℕ) : ∀ v : ℕ, v < 10 ^ w → ∀ d ∈ digitsPad w v, d < 10 := by
  induction w with
  | zero => simp [digitsPad]
  | succ w ih =>
    intro v hv d hd
    simp only [digitsPad, List.mem_cons] at hd
    rcases hd with h | h
    · subst h
      have hv' : v < 10 ^ w * 10 := by
        have : (10 : ℕ) ^ (w + 1) = 10 ^ w * 10 := pow_succ 10 w
        omega
      exact Nat.div_lt_of_lt_mul hv'
    · exact ih (v % 10 ^ w) (Nat.mod_lt _ (by positivity)) d h

/-- Equal-width zero-padded numerals compare lexicographically exactly as
their values compare numerically. -/
theorem digitsPad_lex (w : ℕ) : ∀ a b : ℕ, b < 10 ^ w → a < b →
    List.Lex (· < ·) (digitsPad w a) (digitsPad w b) := by
  induction w with
  | zero =>
    intro a b hb hab
    simp only [pow_zero] at hb
    omega
  | succ w ih =>
    intro a b hb hab
    have hle : a / 10 ^ w ≤ b / 10 ^ w := Nat.div_le_div_right hab.le
    rcases lt_or_eq_of_le hle with h | h
    · exact List.Lex.rel h
    · have ha' := Nat.div_add_mod a (10 ^ w)
      have hb' := Nat.div_add_mod b (10 ^ w)
      rw [h] at ha'
      have hmod : a % 10 ^ w < b % 10 ^ w := by omega
      have hbm : b % 10 ^ w < 10 ^ w := Nat.mod_lt _ (by positivity)
      have htail := ih (a % 10 ^ w) (b % 10 ^ w) hbm hmod
      simp only [digitsPad, h]
      exact List.Lex.cons htail

/-- The digit-to-character map is strictly monotone on decimal digits. -/
theorem digitChar_lt {d e : ℕ} (hd : d < 10) (he : e < 10) (h : d < e) :
    digitChar d < digitChar e := by
  interval_cases d <;> interval_cases e <;> decide

/-- Mapping digits to characters preserves strict lexicographic order. -/
theorem lex_map_digitChar {l₁ l₂ : List ℕ} (h : List.Lex (· < ·) l₁ l₂) :
    (∀ d ∈ l₁, d < 10) → (∀ d ∈ l₂, d < 10) →
    List.Lex (· < ·) (l₁.map digitChar) (l₂.map digitChar) := by
  induction h with
  | nil =>
    intro _ _
    simp only [List.map_nil, List.map_cons]
    exact List.Lex.nil
  | cons hlex ih =>
    intro h₁ h₂
    simp only [List.map_cons]
    exact List.Lex.cons
      (ih (fun d hd => h₁ d (List.mem_cons_of_mem _ hd))
          (fun d hd => h₂ d (List.mem_cons_of_mem _ hd)))
  | rel hr =>
    intro h₁ h₂
    simp only [List.map_cons]
    exact List.Lex.rel
      (digitChar_lt (h₁ _ (List.mem_cons_self _ _)) (h₂ _ (List.mem_cons_self _ _)) hr)

/-- A common prefix does not affect strict lexicographic comparison. -/
theorem lex_append_left (p : List Char) {l₁ l₂ : List Char}
    (h : List.Lex (· < ·) l₁ l₂) :
    List.Lex (· < ·) (p ++ l₁) (p ++ l₂) := by
  induction p with
  | nil => simpa using h
  | cons a p ih =>
    simp only [List.cons_append]
    exact List.Lex.cons ih

/-- Every index produced by `prepare_from_file` fits in the computed
padding width. -/
theorem idx_lt_pow (total offset i : ℕ) (hi : i < total) :
    i + offset < 10 ^ clog10width (total + offset) := by
  have h1 : total + offset ≤ 10 ^ Nat.clog 10 (total + offset) :=
    Nat.le_pow_clog (by norm_num) _
  have h2 : 10 ^ Nat.clog 10 (total + offset) ≤ 10 ^ clog10width (total + offset) :=
    Nat.pow_le_pow_right (by norm_num) (by simp [clog10width])
  omega

/-- Generated ligand names are strictly increasing in the index. -/
theorem prepareName_lt (total offset i j : ℕ) (hj : j < total) (hij : i < j) :
    List.Lex (· < ·) (prepareName total offset i "") (prepareName total offset j "") := by
  have hbj := idx_lt_pow total offset j hj
  have hbi := idx_lt_pow total offset i (lt_trans hij hj)
  have hlex := digitsPad_lex (clog10width (total + offset)) (i + offset) (j + offset)
    hbj (by omega)
  have hmap := lex_map_digitChar hlex
    (digitsPad_lt_ten _ _ hbi) (digitsPad_lt_ten _ _ hbj)
  simp only [prepareName, ligandName, pyZeroPad, if_pos rfl]
  exact lex_append_left _ hmap

/-! ## Claims -/

/-- Claim C1 (code_bug). The reduction half of the claim holds of the
spec-modelled reducer: `calc_score` on the empty list is absent for every
mode, every `k` and every weight function. The runner half fails in the
source: `VinaRunner.run` raises on every input (the call at line 173
names the nonexistent `parse_log_file`), so the recorded result's score
field is never reached at all; the theorem shows every run ends in an
exception. -/
theorem claim_C1_empty_reduction_and_run :
    (∀ (ew : ℚ → ℚ) (mode : ScoreMode) (k : Option ℤ), calc_score ew [] mode k = none) ∧
    (∀ (d : VinaCalculationData) (exitOk : Bool) (lc : Option (List String)),
      ∃ e : PyErr, (VinaRunner.run d exitOk lc).2 = .error e) := by
  refine ⟨fun _ _ _ => rfl, fun d exitOk lc => ?_⟩
  cases h : d.prepared_ligand with
  | none => exact ⟨.typeError, by simp [VinaRunner.run, h]⟩
  | some lig => exact ⟨.attributeError, by simp [VinaRunner.run, h]⟩

/-- Claim C2 (code_bug): the claim says the runner never raises and
always records a `CalculationResult`; in the source every invocation of
`VinaRunner.run` raises — `AttributeError` at the `parse_log_file` call
(line 173; the method is named `parse_logfile`), or `TypeError` earlier
when `prepared_ligand` is unset. -/
theorem claim_C2_runner_raises (d : VinaCalculationData) (exitOk : Bool)
    (lc : Option (List String)) :
    (VinaRunner.run d exitOk lc).2 = .error .attributeError ∨
    (VinaRunner.run d exitOk lc).2 = .error .typeError := by
  cases h : d.prepared_ligand with
  | none => exact Or.inr (by simp [VinaRunner.run, h])
  | some lig => exact Or.inl (by simp [VinaRunner.run, h])

/-- Claim C3 (code_bug): the claim says the parser returns absent on an
unreadable file, a missing border, or no parseable number. In the source,
an unreadable file leaves `score_lines` unbound (`NameError`), and on a
readable file the lazy `takewhile` is consumed after the `with` block has
closed the handle (`ValueError`), whatever the contents; the spec-side
parser does return absent on unreadable input. -/
theorem claim_C3_parser_error_paths :
    parse_logfile none = .error .nameError ∧
    (∀ lines, parse_logfile (some lines) = .error .valueError) ∧
    logParserSpec none = none :=
  ⟨rfl, fun _ => rfl, rfl⟩

/-- Claim C4 (code_bug): on the three-row bordered transcript the claim
expects exactly the three scores in order, and absent for the borderless
transcript; the source parser instead raises `ValueError` on both (closed
handle), while the spec-side parser produces exactly the claimed
values. -/
theorem claim_C4_transcripts :
    parse_logfile (some vinaTranscript) = .error .valueError ∧
    logParserSpec (some vinaTranscript) = some [-81/10, -79/10, -72/10] ∧
    parse_logfile (some noBorderTranscript) = .error .valueError ∧
    logParserSpec (some noBorderTranscript) = none := by
  refine ⟨rfl, ?_, rfl, rfl⟩
  with_unfolding_all rfl

/-- Claim C5 (corrected): over collected rows that all carry at least two
tokens, the extraction loop of lines 276-283 skips exactly the rows whose
second token fails float parsing and returns the parsed scores in order;
the original claim's stronger statement — that a row with fewer than two
tokens is also skipped — is refuted by the counterexample, since such a
row raises an uncaught `IndexError`. -/
theorem claim_C5_skip_only_value_errors (lines : List String)
    (hw : ∀ l ∈ lines, pyIn "Writing" l = false)
    (hl : ∀ l ∈ lines, 2 ≤ (pySplit l).length) :
    scoresLoopOpen lines [] = .ok (pyOrNone (rowScores lines)) := by
  simpa using scoresLoopOpen_ok lines hw hl []

/-- Claim C5 counterexample: a collected row with a single token makes
the extraction loop abort with `IndexError` instead of being skipped —
the valid row after it is lost. -/
theorem claim_C5_short_line_aborts :
    scoresLoopOpen ["x", "2 -7.2"] [] = .error .indexError := rfl

/-- Claim C5 witness: three rows with two tokens each, the middle one
unparseable, yield the first and third scores in order. -/
theorem claim_C5_skip_witness :
    scoresLoopOpen ["1 -8.1", "2 junk", "3 -7.2"] [] = .ok (some [-81/10, -72/10]) := by
  rw [claim_C5_skip_only_value_errors ["1 -8.1", "2 junk", "3 -7.2"]
    (by decide) (by decide)]
  with_unfolding_all rfl

/-- Claim C6 (confirmed): `build_argv` is pure construction; it names the
out/log files `<engine>_<name>_out.pdbqt` / `<engine>_<name>.log` under
the output directory, defaults `name` to `<receptor stem>_<ligand stem>`
when it is absent (or empty, which Python's `or` also treats as missing),
and emits one flag per box dimension, a worker-count flag, explicit out-
and log-file flags, then the caller's extra flags verbatim. -/
theorem claim_C6_build_argv (ligand receptor : String) (software : Software)
    (center size : ℚ × ℚ × ℚ) (ncpu : ℕ) (path : String) (extra : List String) :
    (∀ nm : String, nm ≠ "" →
      build_argv ligand receptor software center size ncpu (some nm) path extra =
        ([software.value,
          "--receptor=" ++ receptor,
          "--ligand=" ++ ligand,
          "--center_x=" ++ qstr center.1,
          "--center_y=" ++ qstr center.2.1,
          "--center_z=" ++ qstr center.2.2,
          "--size_x=" ++ qstr size.1,
          "--size_y=" ++ qstr size.2.1,
          "--size_z=" ++ qstr size.2.2,
          "--cpu=" ++ toString ncpu,
          "--out=" ++ (path ++ "/" ++ software.value ++ "_" ++ nm ++ "_out.pdbqt"),
          "--log=" ++ (path ++ "/" ++ software.value ++ "_" ++ nm ++ ".log")] ++ extra,
         path ++ "/" ++ software.value ++ "_" ++ nm ++ "_out.pdbqt",
         path ++ "/" ++ software.value ++ "_" ++ nm ++ ".log")) ∧
    build_argv ligand receptor software center size ncpu none path extra =
      ([software.value,
        "--receptor=" ++ receptor,
        "--ligand=" ++ ligand,
        "--center_x=" ++ qstr center.1,
        "--center_y=" ++ qstr center.2.1,
        "--center_z=" ++ qstr center.2.2,
        "--size_x=" ++ qstr size.1,
        "--size_y=" ++ qstr size.2.1,
        "--size_z=" ++ qstr size.2.2,
        "--cpu=" ++ toString ncpu,
        "--out=" ++ (path ++ "/" ++ software.value ++ "_" ++
          (pyStem receptor ++ "_" ++ pyStem ligand) ++ "_out.pdbqt"),
        "--log=" ++ (path ++ "/" ++ software.value ++ "_" ++
          (pyStem receptor ++ "_" ++ pyStem ligand) ++ ".log")] ++ extra,
       path ++ "/" ++ software.value ++ "_" ++
         (pyStem receptor ++ "_" ++ pyStem ligand) ++ "_out.pdbqt",
       path ++ "/" ++ software.value ++ "_" ++
         (pyStem receptor ++ "_" ++ pyStem ligand) ++ ".log") := by
  constructor
  · intro nm hnm
    simp [build_argv, hnm]
  · rfl

/-- Claim C6 witness: the builder at a concrete invocation. -/
theorem claim_C6_build_argv_witness :
    build_argv "ligands/L1.pdbqt" "receptors/5WIU.pdbqt" .qvina (1, 2, 3) (4, 5, 6) 8
        (some "5WIU_L1") "out" ["--exhaustiveness=16"] =
      (["qvina", "--receptor=receptors/5WIU.pdbqt", "--ligand=ligands/L1.pdbqt",
        "--center_x=" ++ qstr 1, "--center_y=" ++ qstr 2, "--center_z=" ++ qstr 3,
        "--size_x=" ++ qstr 4, "--size_y=" ++ qstr 5, "--size_z=" ++ qstr 6,
        "--cpu=8", "--out=out/qvina_5WIU_L1_out.pdbqt", "--log=out/qvina_5WIU_L1.log",
        "--exhaustiveness=16"],
       "out/qvina_5WIU_L1_out.pdbqt", "out/qvina_5WIU_L1.log") := by
  rw [(claim_C6_build_argv "ligands/L1.pdbqt" "receptors/5WIU.pdbqt" .qvina (1, 2, 3)
    (4, 5, 6) 8 "out" ["--exhaustiveness=16"]).1 "5WIU_L1" (by simp)]
  with_unfolding_all rfl

/-- Claim C7 (corrected): receptor-preparation failure is reported on
stderr and yields `None`, so only calculations depending on that receptor
are lost; but ligand preparation from SMILES contradicts the claim's
universal statement — its `try` swallows conversion errors silently
(`pass`, nothing reported), a failed read then crashes with `NameError`
at the unguarded `mol.write`, and a failed 3D/charge step continues
silently as if preparation had succeeded. -/
theorem claim_C7_preparation_reporting :
    (∀ d : VinaCalculationData, prepare_receptor d false =
      (["ERROR: failed to convert \"" ++ d.receptor ++ "\""], none)) ∧
    (∀ d : VinaCalculationData, prepare_receptor d true =
      ([], some
        { d with prepared_receptor := some (d.in_path ++ "/" ++ pyStem d.receptor ++ ".pdbqt") })) ∧
    (∀ (d : VinaCalculationData) (b : Bool),
      prepare_from_smi d false b = ([], .error .nameError)) ∧
    (∀ d : VinaCalculationData, prepare_from_smi d true false =
      ([], .ok
        { d with prepared_ligand := some (d.in_path ++ "/" ++ d.name ++ ".pdbqt") })) :=
  ⟨fun _ => rfl, fun _ => rfl, fun _ _ => rfl, fun _ => rfl⟩

/-- Claim C7 counterexample: a failed SMILES read crashes
`prepare_from_smi` with `NameError` and reports nothing, instead of
producing an absent score with the failure reported. -/
theorem claim_C7_smi_crash :
    prepare_from_smi sampleData false true = ([], .error .nameError) := rfl

/-- Claim C8 (confirmed): an untitled molecule at index `i` of `total` is
named `ligand_` followed by `i + offset` zero-padded to width
`ceil(log10(total + offset)) + 1`, and for any two such indices the
lexicographic order of the generated names coincides with the numeric
order of the indices. -/
theorem claim_C8_ligand_naming (total offset i j : ℕ)
    (hi : i < total) (hj : j < total) :
    prepareName total offset i "" =
      "ligand_".toList ++ pyZeroPad (clog10width (total + offset)) (i + offset)
    ∧ (List.Lex (· < ·) (prepareName total offset i "") (prepareName total offset j "")
        ↔ i < j) := by
  constructor
  · simp [prepareName, ligandName]
  · constructor
    · intro h
      by_contra hne
      push_neg at hne
      rcases eq_or_lt_of_le hne with he | hlt
      · rw [he] at h
        exact absurd h (irrefl _)
      · exact absurd h (asymm (prepareName_lt total offset j i hi hlt))
    · intro h
      exact prepareName_lt total offset i j hj h

/-- Claim C8 witness: among 12 molecules, the name generated for index 2
precedes the one generated for index 10 lexicographically, matching the
numeric order — which only holds thanks to the zero padding. -/
theorem claim_C8_ligand_naming_witness :
    2 < 12 ∧ 10 < 12 ∧
    List.Lex (· < ·) (prepareName 12 0 2 "") (prepareName 12 0 10 "") :=
  ⟨by decide, by decide,
   (claim_C8_ligand_naming 12 0 2 10 (by decide) (by decide)).2.mpr (by decide)⟩

/-- Claim C9 (corrected): `positive_int` does reject non-positive values,
but it is applied only to `--repeats`; the `-k` option's converter is
plain `int`, and `VinaCalculationData` construction stores any `k`
unvalidated, so no non-positive or missing `k` is ever rejected before
reduction. -/
theorem claim_C9_k_validation :
    (∀ (s : String) (v : ℤ), pyInt s = some v → v ≤ 0 →
      positive_int s = .error .argumentTypeError) ∧
    (∀ (s : String) (v : ℤ), pyInt s = some v → 0 < v →
      positive_int s = .ok v) ∧
    (∀ (s : String) (v : ℤ), pyInt s = some v → kArgType s = .ok v) ∧
    (∀ (smi receptor : String) (software : Software) (center size : ℚ × ℚ × ℚ)
       (ncpu : ℕ) (extra : Option String) (name : String)
       (input_file : Option String) (in_path out_path : String)
       (score_mode : ScoreMode) (k : ℤ)
       (prepared_ligand prepared_receptor : Option String)
       (result : Option (List (String × RVal))),
      (mkVinaCalculationData smi receptor software center size ncpu extra name
        input_file in_path out_path score_mode k prepared_ligand
        prepared_receptor result).k = k) := by
  refine ⟨?_, ?_, ?_, ?_⟩
  · intro s v hs hv
    simp [positive_int, hs, hv]
  · intro s v hs hv
    rw [positive_int, hs]
    simp only []
    rw [if_neg (by omega)]
  · intro s v hs
    simp [kArgType, hs]
  · intros
    rfl

/-- Claim C9 counterexample: the `-k` converter accepts `0` and `-3`, and
a TOP_K calculation spec is constructed with `k = 0` without any error —
nothing rejects a non-positive `k` at construction time. -/
theorem claim_C9_k_unchecked :
    kArgType "0" = .ok 0 ∧ kArgType "-3" = .ok (-3) ∧
    (mkVinaCalculationData "c1ccccc1" "receptors/5WIU.pdb" .vina (0, 0, 0)
      (10, 10, 10) 1 none "ligand" none "." "." .topK 0 none none none).k = 0 ∧
    (mkVinaCalculationData "c1ccccc1" "receptors/5WIU.pdb" .vina (0, 0, 0)
      (10, 10, 10) 1 none "ligand" none "." "." .topK 0 none none
      none).score_mode = .topK := by
  refine ⟨?_, ?_, rfl, rfl⟩ <;> with_unfolding_all rfl

/-- Claim C9 witness: `positive_int` rejecting `0` and accepting `7`, the
`-k` converter passing `-2` through, and a constructed spec storing
`k = -7` unvalidated. -/
theorem claim_C9_k_validation_witness :
    positive_int "0" = .error .argumentTypeError ∧
    positive_int "7" = .ok 7 ∧
    kArgType "-2" = .ok (-2) ∧
    (mkVinaCalculationData "CCO" "r.pdb" .vina (0, 0, 0) (10, 10, 10) 1 none
      "ligand" none "." "." .topK (-7) none none none).k = -7 :=
  ⟨claim_C9_k_validation.1 "0" 0 (by with_unfolding_all rfl) (by decide),
   claim_C9_k_validation.2.1 "7" 7 (by with_unfolding_all rfl) (by decide),
   claim_C9_k_validation.2.2.1 "-2" (-2) (by with_unfolding_all rfl),
   claim_C9_k_validation.2.2.2 "CCO" "r.pdb" .vina (0, 0, 0) (10, 10, 10) 1 none
     "ligand" none "." "." .topK (-7) none none none⟩

/-- Claim C10 (confirmed): reading `score` before the calculation has run
raises `NotSimulatedError`; reading it when a result mapping exists but
has no `score` key raises `InvalidResultError`; a value is returned
exactly when the mapping contains the `score` key. -/
theorem claim_C10_score_property (d : VinaCalculationData)
    (m : List (String × RVal)) (v : RVal) :
    (d.result = none → d.score = .error .notSimulated) ∧
    (d.result = some m → m.lookup "score" = none →
      d.score = .error .invalidResult) ∧
    (d.result = some m → m.lookup "score" = some v → d.score = .ok v) := by
  refine ⟨fun h => ?_, fun h hl => ?_, fun h hl => ?_⟩
  · simp [VinaCalculationData.score, h]
  · simp [VinaCalculationData.score, h, hl]
  · simp [VinaCalculationData.score, h, hl]

/-- Claim C10 witness: the three cases of the `score` property at
concrete calculation data. -/
theorem claim_C10_score_property_witness :
    (mkVinaCalculationData "C" "r.pdb" .vina (0, 0, 0) (10, 10, 10) 1 none
      "ligand" none "." "." .best 1 none none none).score =
        .error .notSimulated ∧
    (mkVinaCalculationData "C" "r.pdb" .vina (0, 0, 0) (10, 10, 10) 1 none
      "ligand" none "." "." .best 1 none none
      (some [("smiles", .str "C")])).score = .error .invalidResult ∧
    (mkVinaCalculationData "C" "r.pdb" .vina (0, 0, 0) (10, 10, 10) 1 none
      "ligand" none "." "." .best 1 none none
      (some [("score", .num none)])).score = .ok (.num none) :=
  ⟨(claim_C10_score_property _ [] (.str "")).1 rfl,
   (claim_C10_score_property _ [("smiles", RVal.str "C")] (.str "")).2.1 rfl
     (by with_unfolding_all rfl),
   (claim_C10_score_property _ [("score", RVal.num none)] (.num none)).2.2 rfl
     (by with_unfolding_all rfl)⟩
